import Mathlib

/-!
Verification of the `tiko` Home Assistant custom integration
(`custom_components/tiko`): a shallow embedding in Lean 4 of the API client
(`tiko_api.py`), the update coordinator (`coordinator.py`), the mode-map
constants (`const.py`) and the climate-entity derivations (`climate.py`),
together with theorems settling the specification claims about them.

Python values flowing through the integration (decoded JSON bodies, room and
device dictionaries) are modelled by the inductive type `JVal`; Python
exceptions by `PyExc`; an HTTP reply by `HttpResponse`.  Stateful methods are
modelled as explicit state-passing functions, and `async` calls to the remote
service are modelled by passing in the outcome of each call (an
`Except PyExc _` value or an `AuthOutcome`) as environment data.
-/

/-- A Python/JSON value as handled by the integration: the decoded reply
bodies and the room/device dictionaries.  Numbers keep Python's `int` vs
`float` distinction; floats are modelled as rationals (every numeric literal
appearing in the claims is exactly representable). -/
inductive JVal where
  | jnull : JVal
  | jbool : Bool → JVal
  | jint : Int → JVal
  | jrat : Rat → JVal
  | jstr : String → JVal
  | jarr : List JVal → JVal
  | jobj : List (String × JVal) → JVal

/-- Python exceptions raised by the code under verification.
`clientError` covers `aiohttp.ClientError` and its subclasses (transport,
HTTP-status and protocol failures); `updateFailedExc` is Home Assistant's
`UpdateFailed`; `configEntryAuthFailedExc` is `ConfigEntryAuthFailed`. -/
inductive PyExc where
  | tikoAuthError (msg : String)
  | tikoRateLimitError (msg : String)
  | clientError (msg : String)
  | keyError (key : String)
  | indexError (msg : String)
  | typeError
  | attributeError
  | valueError (msg : String)
  | updateFailedExc (msg : String)
  | configEntryAuthFailedExc
deriving DecidableEq

/-- The `str(err)` for a modelled exception, as used by
`"Authentication failed" not in str(err)` in the coordinator.  For the
message-carrying exceptions `str` returns the message. -/
def PyExc.str : PyExc → String
  | .tikoAuthError m => m
  | .tikoRateLimitError m => m
  | .clientError m => m
  | .keyError k => String.append (String.append "\x27" k) "\x27"
  | .indexError m => m
  | .typeError => "type error"
  | .attributeError => "attribute error"
  | .valueError m => m
  | .updateFailedExc m => m
  | .configEntryAuthFailedExc => ""

/-- The `listStartsWith hay needle`: `needle` is a leading segment of `hay`. -/
def listStartsWith : List Char → List Char → Bool
  | _, [] => true
  | [], _ :: _ => false
  | a :: as, b :: bs => a = b && listStartsWith as bs

/-- The `listHasSegment hay needle`: `needle` occurs contiguously inside `hay`. -/
def listHasSegment (hay needle : List Char) : Bool :=
  listStartsWith hay needle ||
    match hay with
    | [] => false
    | _ :: t => listHasSegment t needle

/-- Python's substring test `needle in hay` on strings. -/
def strContains (hay needle : String) : Bool :=
  listHasSegment hay.toList needle.toList

/-- Key lookup in a modelled dictionary (association list; keys are unique
because dictionaries are built with `dictInsert`). -/
def lookupKey : List (String × JVal) → String → Option JVal
  | [], _ => none
  | (k1, v) :: rest, k => if k1 = k then some v else lookupKey rest k

/-- Insertion with Python `dict` semantics: an existing key keeps its
position and gets the new value, a new key is appended. -/
def dictInsert (fs : List (String × JVal)) (k : String) (v : JVal) :
    List (String × JVal) :=
  if (fs.map Prod.fst).contains k then
    fs.map (fun p => if p.1 = k then (k, v) else p)
  else fs ++ [(k, v)]

/-- Python truthiness (`if not x`): `None`, `False`, numeric zero and empty
containers are falsy. -/
def JVal.truthy : JVal → Bool
  | .jnull => false
  | .jbool b => b
  | .jint n => n != 0
  | .jrat q => q != 0
  | .jstr s => s ≠ ""
  | .jarr xs => ¬xs.isEmpty
  | .jobj fs => ¬fs.isEmpty

/-- Python subscripting `v[k]` with a string key: `KeyError` on a dict
without the key, `TypeError` on any non-dict (lists and strings reject
string indices; scalars are not subscriptable). -/
def pyGetItem (v : JVal) (k : String) : Except PyExc JVal :=
  match v with
  | .jobj fs =>
    match lookupKey fs k with
    | some x => .ok x
    | none => .error (.keyError k)
  | _ => .error .typeError

/-- Python subscripting `v[i]` with a non-negative integer index:
`IndexError` past the end of a list, `TypeError` on a non-sequence. -/
def pyIndex (v : JVal) (i : Nat) : Except PyExc JVal :=
  match v with
  | .jarr xs =>
    match xs.get? i with
    | some x => .ok x
    | none => .error (.indexError "list index out of range")
  | _ => .error .typeError

/-- Python membership `k in v` for a string `k`: key test on a dict,
element test on a list, substring test on a string, `TypeError` otherwise. -/
def pyContains (v : JVal) (k : String) : Except PyExc Bool :=
  match v with
  | .jobj fs => .ok ((fs.map Prod.fst).contains k)
  | .jarr xs =>
    -- `k in list` compares `k` with each element by `==`; a string equals
    -- no value of another type, so only `jstr` elements can match
    .ok (xs.any (fun x => match x with | .jstr s => s = k | _ => false))
  | .jstr s => .ok (strContains s k)
  | _ => .error .typeError

/-- Python `v.get(k, dflt)`: only dictionaries have `.get`; anything else
(including `None`) raises `AttributeError`. -/
def pyDictGet (v : JVal) (k : String) (dflt : JVal) : Except PyExc JVal :=
  match v with
  | .jobj fs => .ok ((lookupKey fs k).getD dflt)
  | _ => .error .attributeError

/-- Python `str(v)` for the scalar values that reach it in this integration
(room and device ids are JSON numbers or strings).  The container cases are
placeholders: the integration never builds a map key from a container. -/
def pyStrOf : JVal → String
  | .jnull => "None"
  | .jbool b => if b then "True" else "False"
  | .jint n => toString n
  | .jrat q => toString q
  | .jstr s => s
  | .jarr _ => "<list>"
  | .jobj _ => "<dict>"

/-! ### `tiko_api.py`: the API client -/

/-- The `TikoAPI.base_url`. -/
def tikoBaseUrl : String := "https://particuliers-tiko.fr"

/-- The `TikoAPI.url`, the GraphQL endpoint. -/
def tikoApiUrl : String := "https://particuliers-tiko.fr/api/v3/graphql/"

/-- An HTTP reply as observed by `_make_request`: the status code, the value
of the `Content-Type` header ("" when absent), and the decoded JSON body
(`none` when the payload is not valid JSON, in which case
`response.json()` raises a `ClientError`). -/
structure HttpResponse where
  status : Nat
  contentType : String
  body : Option JVal

/-- The `TikoAPI._make_request` (tiko_api.py lines 62-110).  Mirrors, in order:
`response.raise_for_status()` (raises for status ≥ 400); the early `{}`
return for the initial `GET` of the base URL; the `Content-Type` check
(`aiohttp.ClientError` unless it mentions `application/json`); JSON
decoding; and the classification of an application-level `errors` list
(rate-limit substring first, then invalid-credentials substring, then a
generic `ClientError`).  The `except aiohttp.ClientError: raise` clause
re-raises unchanged, so it does not alter the returned error. -/
def makeRequest (method url : String) (resp : HttpResponse) :
    Except PyExc JVal :=
  if resp.status ≥ 400 then
    .error (.clientError (String.append "HTTP status error " (toString resp.status)))
  else if method = "GET" ∧ url = tikoBaseUrl then
    .ok (.jobj [])
  else if ¬ strContains resp.contentType "application/json" then
    .error (.clientError (String.append "Unexpected content type: " resp.contentType))
  else
    match resp.body with
    | none => .error (.clientError "json decode error")
    | some result =>
      match pyContains result "errors" with
      | .error e => .error e
      | .ok true =>
        -- error_msg = result["errors"][0]["message"]
        match (do
            let errs ← pyGetItem result "errors"
            let e0 ← pyIndex errs 0
            pyGetItem e0 "message" : Except PyExc JVal) with
        | .error e => .error e
        | .ok emsg =>
          match emsg with
          | .jstr m =>
            if strContains m "Limite de taux atteinte" then
              .error (.tikoRateLimitError m)
            else if strContains m "Invalid credentials" then
              .error (.tikoAuthError m)
            else
              .error (.clientError m)
          | _ => .error .typeError  -- `substring in error_msg` on a non-string
      | .ok false => .ok result

/-- The mutable attributes of a `TikoAPI` object that `authenticate` touches.
`token`, `userId` and `propertyId` are `none` while the attribute has never
been assigned (`__init__` does not create them, so `hasattr(api, "token")`
is `token.isSome`); `authHeaderToken` is the token the `Authorization`
header was last updated with. -/
structure ApiState where
  token : Option JVal
  userId : Option JVal
  propertyId : Option JVal
  authHeaderToken : Option String

/-- A fresh `TikoAPI` object: no `token`/`user_id`/`property_id` attribute
and no `Authorization` header. -/
def apiInit : ApiState :=
  { token := none, userId := none, propertyId := none, authHeaderToken := none }

/-- The `TikoAPI.authenticate` (tiko_api.py lines 112-215), given the replies to
its two HTTP requests (the CSRF `GET` of the base URL, then the `LogIn`
`POST`).  Returns the final object state and the exception raised, if any;
assignments made before an exception persist, as in Python.  Mirrors, in
order: the two `_make_request` calls; the
`if not result.get("data", {}).get("logIn")` guard raising
`TikoAuthenticationError("Authentication failed")`; the assignments
`self.token = data["token"]`, `self.user_id = data["user"]["id"]`,
`self.property_id = data["user"]["properties"][0]["id"]` (an empty
`properties` list raises `IndexError` here, after `token` and `user_id`
are already assigned); the `Authorization` header update; and the final
debug log whose argument `self.token[:10]` raises `TypeError` when the
token value is not a sequence. -/
def authenticate (st : ApiState) (getResp loginResp : HttpResponse) :
    ApiState × Option PyExc :=
  match makeRequest "GET" tikoBaseUrl getResp with
  | .error e => (st, some e)
  | .ok _ =>
    match makeRequest "POST" tikoApiUrl loginResp with
    | .error e => (st, some e)
    | .ok result =>
      match (do
          let d ← pyDictGet result "data" (.jobj [])
          pyDictGet d "logIn" .jnull : Except PyExc JVal) with
      | .error e => (st, some e)
      | .ok logInV =>
        if ¬ logInV.truthy then
          (st, some (.tikoAuthError "Authentication failed"))
        else
          match (do
              let d ← pyGetItem result "data"
              pyGetItem d "logIn" : Except PyExc JVal) with
          | .error e => (st, some e)
          | .ok data =>
            match pyGetItem data "token" with
            | .error e => (st, some e)
            | .ok tok =>
              let st1 := { st with token := some tok }
              match (do
                  let u ← pyGetItem data "user"
                  pyGetItem u "id" : Except PyExc JVal) with
              | .error e => (st1, some e)
              | .ok uid =>
                let st2 := { st1 with userId := some uid }
                match (do
                    let u ← pyGetItem data "user"
                    let props ← pyGetItem u "properties"
                    let p0 ← pyIndex props 0
                    pyGetItem p0 "id" : Except PyExc JVal) with
                | .error e => (st2, some e)
                | .ok pid =>
                  let st3 := { st2 with propertyId := some pid }
                  let st4 := { st3 with
                    authHeaderToken := some (String.append "Token " (pyStrOf tok)) }
                  match tok with
                  | .jstr _ => (st4, none)
                  | .jarr _ => (st4, none)  -- lists are sliceable too
                  | _ => (st4, some .typeError)

/-! ### `const.py`: mode-map constants -/

def MODE_NORMAL : String := "on"

def MODE_OFF : String := "off"

def MODE_FROST : String := "frost"

def MODE_ABSENCE : String := "absence"

/-- Insertion with Python `dict` semantics for string-valued dictionaries. -/
def strDictInsert (fs : List (String × String)) (k v : String) :
    List (String × String) :=
  if (fs.map Prod.fst).contains k then
    fs.map (fun p => if p.1 = k then (k, v) else p)
  else fs ++ [(k, v)]

/-- Key lookup in a string-valued dictionary. -/
def strLookup : List (String × String) → String → Option String
  | [], _ => none
  | (k1, v) :: rest, k => if k1 = k then some v else strLookup rest k

/-- The `HA_MODE_MAP` (const.py lines 12-17): Tiko service mode → HA mode. -/
def HA_MODE_MAP : List (String × String) :=
  [(MODE_NORMAL, "heat"), (MODE_OFF, "off"), (MODE_FROST, "eco"),
   (MODE_ABSENCE, "away")]

/-- The `TIKO_MODE_MAP` (const.py line 19): the dict comprehension
`{v: k for k, v in HA_MODE_MAP.items()}`. -/
def TIKO_MODE_MAP : List (String × String) :=
  HA_MODE_MAP.foldl (fun acc p => strDictInsert acc p.2 p.1) []

/-! ### `coordinator.py`: the update coordinator -/

/-- The coordinator state observable between refresh cycles: the retained
`self.rooms` and `self.devices` maps, and the API object's `token`
attribute (what `hasattr(self.api, "token")` inspects). -/
structure CoordState where
  apiToken : Option JVal
  rooms : List (String × JVal)
  devices : List (String × JVal)

/-- The observable effect of one call to `api.authenticate()` as seen by the
coordinator: the exception it raises (if any) and the token it stored on
the API object (if it reached that assignment — `authenticate` can assign
the token and still raise later, see `authenticate` above). -/
structure AuthOutcome where
  exc : Option PyExc
  setsToken : Option JVal

/-- The environment of one `_async_update_data` cycle: the outcome of the
initial `authenticate()` (used only when the API has no token), of the
`asyncio.gather(get_rooms(), get_devices())` pair (its value is the
`(rooms_result, devices_result)` pair; its error is the first exception),
and of the re-authentication and retried gather (used only on the
token-expired path). -/
structure UpdateEnv where
  auth1 : AuthOutcome
  fetch1 : Except PyExc (JVal × JVal)
  auth2 : AuthOutcome
  fetch2 : Except PyExc (JVal × JVal)

/-- The result of one `_async_update_data` cycle: the final coordinator
state, the returned `(rooms, devices)` maps or the exception propagated to
the caller, and how many times `api.authenticate()` was called. -/
structure UpdateResult where
  state : CoordState
  outcome : Except PyExc ((List (String × JVal)) × (List (String × JVal)))
  authCalls : Nat

/-- The outer `except Exception` handler (coordinator.py lines 105-109):
`ConfigEntryAuthFailed` is re-raised unchanged, every other exception is
wrapped into `UpdateFailed(f"Error communicating with API: {err}")`. -/
def wrapOuter (e : PyExc) : PyExc :=
  match e with
  | .configEntryAuthFailedExc => .configEntryAuthFailedExc
  | _ => .updateFailedExc (String.append "Error communicating with API: " e.str)

/-- The dict comprehension `{str(x["id"]): x for x in xs}` over a decoded
JSON value (coordinator.py lines 79-82 and 92-95).  Iterating an empty
dict or string yields nothing; iterating a non-empty dict or string yields
strings, and subscripting a string with `"id"` raises `TypeError`, as does
iterating a non-iterable. -/
def comprehendById (v : JVal) : Except PyExc (List (String × JVal)) :=
  match v with
  | .jarr xs =>
    xs.foldlM (fun acc room => do
      let idv ← pyGetItem room "id"
      pure (dictInsert acc (pyStrOf idv) room)) []
  | .jobj [] => .ok []
  | .jstr "" => .ok []
  | _ => .error .typeError

/-- The guard `"data" in r and "property" in r["data"]` (coordinator.py
lines 78 and 88-91), with Python's short-circuit evaluation. -/
def hasDataProperty (r : JVal) : Except PyExc Bool := do
  let b1 ← pyContains r "data"
  if b1 then
    let d ← pyGetItem r "data"
    pyContains d "property"
  else
    pure false

/-- Rooms-reply processing (coordinator.py lines 77-85): on a well-formed
reply the new rooms map, otherwise the exception that escapes the block
(`UpdateFailed("Invalid rooms response")` when the guard fails,
a lookup/type error when the comprehension itself raises). -/
def processRooms (r : JVal) : Except PyExc (List (String × JVal)) := do
  let ok1 ← hasDataProperty r
  if ok1 then
    let d ← pyGetItem r "data"
    let p ← pyGetItem d "property"
    let rs ← pyGetItem p "rooms"
    comprehendById rs
  else
    .error (.updateFailedExc "Invalid rooms response")

/-- Devices-reply processing (coordinator.py lines 87-98), analogous to
`processRooms` with the `devices` key. -/
def processDevices (r : JVal) : Except PyExc (List (String × JVal)) := do
  let ok1 ← hasDataProperty r
  if ok1 then
    let d ← pyGetItem r "data"
    let p ← pyGetItem d "property"
    let ds ← pyGetItem p "devices"
    comprehendById ds
  else
    .error (.updateFailedExc "Invalid devices response")

/-- Applies one `authenticate()` outcome to the coordinator state (the API
object's token attribute). -/
def applyAuth (st : CoordState) (a : AuthOutcome) : CoordState :=
  match a.setsToken with
  | some t => { st with apiToken := some t }
  | none => st

/-- Rooms-then-devices processing of a successfully fetched pair
(coordinator.py lines 77-103): `self.rooms` is assigned as soon as the
rooms reply is processed, before the devices reply is examined; on full
success the `{"rooms", "devices"}` dictionary is returned. -/
def processCycle (st2 : CoordState) (n2 : Nat)
    (rooms_result devices_result : JVal) : UpdateResult :=
  match processRooms rooms_result with
  | .error e =>
    { state := st2, outcome := .error (wrapOuter e), authCalls := n2 }
  | .ok newRooms =>
    -- line 79: `self.rooms = {...}` happens before devices are checked
    let st3 := { st2 with rooms := newRooms }
    match processDevices devices_result with
    | .error e =>
      { state := st3, outcome := .error (wrapOuter e), authCalls := n2 }
    | .ok newDevices =>
      { state := { st3 with devices := newDevices },
        outcome := .ok (newRooms, newDevices), authCalls := n2 }

/-- Continuation of `_async_update_data` once the `(rooms, devices)` pair
(or the exception that replaced it) is determined: an escaping exception
goes through the outer handler (`wrapOuter`). -/
def finishFetch (st2 : CoordState) (n2 : Nat)
    (fetched : Except PyExc (JVal × JVal)) : UpdateResult :=
  match fetched with
  | .error e =>
    { state := st2, outcome := .error (wrapOuter e), authCalls := n2 }
  | .ok (r, d) => processCycle st2 n2 r d

/-- The `except` clause of the dual fetch (coordinator.py lines 66-76): a
fetch error whose `str` does not contain `"Authentication failed"` is
re-raised; otherwise `authenticate()` runs once more (its own failure
escaping to the outer handler) and the fetch pair is retried once. -/
def runFetchErr (st1 : CoordState) (n : Nat) (env : UpdateEnv) (e : PyExc) :
    UpdateResult :=
  if ¬ strContains e.str "Authentication failed" then
    finishFetch st1 n (.error e)
  else
    let st2 := applyAuth st1 env.auth2
    match env.auth2.exc with
    | some e2 => finishFetch st2 (n + 1) (.error e2)
    | none => finishFetch st2 (n + 1) env.fetch2

/-- The gathered dual fetch with its token-expired retry (coordinator.py
lines 60-76). -/
def runFetch (st1 : CoordState) (n : Nat) (env : UpdateEnv) : UpdateResult :=
  match env.fetch1 with
  | .ok rd => finishFetch st1 n (.ok rd)
  | .error e => runFetchErr st1 n env e

/-- The `TikoUpdateCoordinator._async_update_data` (coordinator.py lines
49-109).  Mirrors, in order: the initial `authenticate()` when the API has
no `token` attribute (lines 52-58), whose failure becomes
`ConfigEntryAuthFailed` (re-raised unchanged by the outer handler at line
105); then the dual fetch with its retry (`runFetch`) and the processing
of both replies (`processCycle`), every other escaping exception being
wrapped into `UpdateFailed` by the outer handler (lines 107-109). -/
def asyncUpdateData (st : CoordState) (env : UpdateEnv) : UpdateResult :=
  if st.apiToken.isNone then
    let st1 := applyAuth st env.auth1
    match env.auth1.exc with
    | some _ =>
      { state := st1, outcome := .error .configEntryAuthFailedExc,
        authCalls := 1 }
    | none => runFetch st1 1 env
  else runFetch st 0 env

/-- The outcome of a coordinator command method: the exception surfaced to
the caller (if any), how many times the underlying API command was
invoked, and whether `async_request_refresh()` was triggered. -/
structure CommandOutcome where
  exc : Option PyExc
  apiCalls : Nat
  refreshRequested : Bool

/-- Python `int(s)` on the decimal strings used as room ids (an optional
sign followed by digits; anything else raises `ValueError`). -/
def pyToInt (s : String) : Except PyExc Int :=
  let core := fun (ds : List Char) =>
    if ds ≠ [] ∧ ds.all Char.isDigit then
      some (ds.foldl (fun (acc : Nat) c => acc * 10 + (c.toNat - 48)) 0)
    else none
  match s.toList with
  | '-' :: ds =>
    match core ds with
    | some v => .ok (-(v : Int))
    | none => .error (.valueError "invalid literal for int()")
  | '+' :: ds =>
    match core ds with
    | some v => .ok (v : Int)
    | none => .error (.valueError "invalid literal for int()")
  | ds =>
    match core ds with
    | some v => .ok (v : Int)
    | none => .error (.valueError "invalid literal for int()")

/-- The `TikoUpdateCoordinator.set_temperature` (coordinator.py lines 111-118),
given the outcome of the single `api.set_temperature` call it performs:
`int(room_id)` conversion, one delegated API call, then
`async_request_refresh()`; any exception is logged and re-raised with no
retry. -/
def coordSetTemperature (roomId : String) (apiResult : Except PyExc JVal) :
    CommandOutcome :=
  match pyToInt roomId with
  | .error e => { exc := some e, apiCalls := 0, refreshRequested := false }
  | .ok _ =>
    match apiResult with
    | .error e => { exc := some e, apiCalls := 1, refreshRequested := false }
    | .ok _ => { exc := none, apiCalls := 1, refreshRequested := true }

/-- The `TikoUpdateCoordinator.set_mode` (coordinator.py lines 120-127), given
the outcome of the single `api.set_heating_mode` call it performs. -/
def coordSetMode (apiResult : Except PyExc JVal) : CommandOutcome :=
  match apiResult with
  | .error e => { exc := some e, apiCalls := 1, refreshRequested := false }
  | .ok _ => { exc := none, apiCalls := 1, refreshRequested := true }

/-! ### `climate.py`: derived entity state -/

/-- The `TikoClimate.room_data` (climate.py lines 71-74):
`coordinator.rooms.get(room_id, {})`. -/
def roomDataOf (st : CoordState) (roomId : String) : JVal :=
  (lookupKey st.rooms roomId).getD (.jobj [])

/-- The `TikoClimate.hvac_action` (climate.py lines 93-98):
`HEATING` when `room_data.get("status", {}).get("heatingOperating")` is
truthy, else `IDLE`. -/
def hvacActionOf (roomData : JVal) : Except PyExc String := do
  let status ← pyDictGet roomData "status" (.jobj [])
  let ho ← pyDictGet status "heatingOperating" .jnull
  pure (if ho.truthy then "heating" else "idle")

/-! ### `urllib.parse.quote` / `urllib.parse.unquote`

`TikoAPI.__init__` stores `urllib.parse.quote(password)` (tiko_api.py line
40) and `authenticate` sends `urllib.parse.unquote(self.password)` (line
183).  Both are modelled at the code-point/byte level: a Python `str` is a
list of Unicode scalar values (Lean `Char`), `quote` UTF-8-encodes it and
percent-escapes every byte outside its safe set, `unquote` turns maximal
`%XX` runs back into bytes and UTF-8-decodes them.  CPython's `unquote`
substitutes U+FFFD for a byte run that is not valid UTF-8
(`errors="replace"`); the model returns `none` exactly there, which no
output of `quote` triggers. -/

/-- A byte of `quote`'s safe set with the default `safe="/"`: the
always-safe bytes (ASCII letters, digits, `_`, `.`, `-`, `~`) plus `/`. -/
def isQuoteSafeByte (b : Nat) : Bool :=
  (0x41 ≤ b && b ≤ 0x5A) || (0x61 ≤ b && b ≤ 0x7A) ||
    (0x30 ≤ b && b ≤ 0x39) || b == 0x5F || b == 0x2E || b == 0x2D ||
    b == 0x7E || b == 0x2F

/-- The UTF-8 encoding of one Unicode scalar value. -/
def utf8EncodeChar (c : Nat) : List Nat :=
  if c < 0x80 then [c]
  else if c < 0x800 then
    [0xC0 + c / 0x40, 0x80 + c % 0x40]
  else if c < 0x10000 then
    [0xE0 + c / 0x1000, 0x80 + (c / 0x40) % 0x40, 0x80 + c % 0x40]
  else
    [0xF0 + c / 0x40000, 0x80 + (c / 0x1000) % 0x40, 0x80 + (c / 0x40) % 0x40,
     0x80 + c % 0x40]

/-- Upper-case hexadecimal digit for `x < 16`, as a code point (`quote`
writes `%XX` with upper-case digits). -/
def hexUpper (x : Nat) : Nat :=
  if x < 10 then 48 + x else 55 + x

/-- The `quote` on one UTF-8 byte: safe bytes pass through as themselves, every
other byte becomes `%` `X` `X`. -/
def quoteByte (b : Nat) : List Nat :=
  if isQuoteSafeByte b then [b]
  else [37, hexUpper (b / 16), hexUpper (b % 16)]

/-- The `urllib.parse.quote(s, safe="/")` on a string given as its list of
Unicode scalar values, producing the code points of the quoted (ASCII)
string. -/
def pyQuote (s : List Nat) : List Nat :=
  ((s.map utf8EncodeChar).flatten.map quoteByte).flatten

/-- The numeric value of a hexadecimal digit code point (`unquote` accepts
both cases), `none` for a non-hex-digit. -/
def hexVal (d : Nat) : Option Nat :=
  if 48 ≤ d ∧ d ≤ 57 then some (d - 48)
  else if 65 ≤ d ∧ d ≤ 70 then some (d - 55)
  else if 97 ≤ d ∧ d ≤ 102 then some (d - 87)
  else none

/-- Collects the leading maximal run of `%XX` escapes (both hex digits
valid) as bytes, returning the bytes and the unconsumed remainder. -/
def collectPctBytes : List Nat → (List Nat × List Nat)
  | 37 :: h :: l :: rest =>
    match hexVal h, hexVal l with
    | some hi, some lo =>
      let r := collectPctBytes rest
      ((hi * 16 + lo) :: r.1, r.2)
    | _, _ => ([], 37 :: h :: l :: rest)
  | xs => ([], xs)

/-- A UTF-8 continuation byte. -/
def isCont (b : Nat) : Bool := 0x80 ≤ b && b < 0xC0
/-- Decodes one UTF-8-encoded scalar value from a lead byte `b` and the
following bytes: the value and the unconsumed remainder, or `none` on a
stray continuation byte, overlong form, surrogate or value above
U+10FFFF. -/
def utf8DecodeOne (b : Nat) (rest : List Nat) : Option (Nat × List Nat) :=
  if b < 0x80 then some (b, rest)
  else if b < 0xC2 then none
  else if b < 0xE0 then
    match rest with
    | b2 :: rest2 =>
      if isCont b2 then some ((b - 0xC0) * 0x40 + (b2 - 0x80), rest2)
      else none
    | [] => none
  else if b < 0xF0 then
    match rest with
    | b2 :: b3 :: rest2 =>
      if isCont b2 && isCont b3 then
        if 0x800 ≤ (b - 0xE0) * 0x1000 + (b2 - 0x80) * 0x40 + (b3 - 0x80) ∧
            ¬(0xD800 ≤ (b - 0xE0) * 0x1000 + (b2 - 0x80) * 0x40 + (b3 - 0x80) ∧
              (b - 0xE0) * 0x1000 + (b2 - 0x80) * 0x40 + (b3 - 0x80) < 0xE000) then
          some ((b - 0xE0) * 0x1000 + (b2 - 0x80) * 0x40 + (b3 - 0x80), rest2)
        else none
      else none
    | _ => none
  else if b < 0xF5 then
    match rest with
    | b2 :: b3 :: b4 :: rest2 =>
      if isCont b2 && isCont b3 && isCont b4 then
        if 0x10000 ≤ (b - 0xF0) * 0x40000 + (b2 - 0x80) * 0x1000 +
              (b3 - 0x80) * 0x40 + (b4 - 0x80) ∧
            (b - 0xF0) * 0x40000 + (b2 - 0x80) * 0x1000 +
              (b3 - 0x80) * 0x40 + (b4 - 0x80) < 0x110000 then
          some ((b - 0xF0) * 0x40000 + (b2 - 0x80) * 0x1000 +
            (b3 - 0x80) * 0x40 + (b4 - 0x80), rest2)
        else none
      else none
    | _ => none
  else none

set_option maxRecDepth 8192 in
/-- The `utf8DecodeOne` only consumes bytes: the remainder it returns is a
suffix of its input. -/
theorem utf8DecodeOne_len (b : Nat) (rest rest2 : List Nat) (cp : Nat)
    (h : utf8DecodeOne b rest = some (cp, rest2)) :
    rest2.length ≤ rest.length := by
  unfold utf8DecodeOne at h
  repeat' split at h
  all_goals first
    | exact Option.noConfusion h
    | (injection h with h5
       injection h5 with h6 h7
       subst h7
       try simp only [List.length_cons]
       omega)

/-- Strict UTF-8 decoding of a byte list into Unicode scalar values
(`none` where CPython with `errors="replace"` would emit U+FFFD). -/
def utf8DecodeBytes (bs : List Nat) : Option (List Nat) :=
  match bs with
  | [] => some []
  | b :: rest =>
    match hd : utf8DecodeOne b rest with
    | some (cp, rest2) => (utf8DecodeBytes rest2).map (fun cs => cp :: cs)
    | none => none
termination_by bs.length
decreasing_by
  have := utf8DecodeOne_len b rest rest2 cp hd
  simp only [List.length_cons]
  omega

/-- The unconsumed remainder of `collectPctBytes` is no longer than its
input. -/
theorem collectPctBytes_len (xs : List Nat) :
    (collectPctBytes xs).2.length ≤ xs.length := by
  induction xs using collectPctBytes.induct with
  | case1 h l rest hi lo hh hl ih =>
    rw [collectPctBytes, hh, hl]
    simp only [List.length_cons]
    omega
  | case2 h l rest hnot =>
    rw [collectPctBytes]
    split
    · rename_i hi lo hh hl
      exact (hnot hi lo hh hl).elim
    · simp
  | case3 ys hys =>
    rw [show collectPctBytes ys = ([], ys) from by
      unfold collectPctBytes
      split
      · rename_i h l rest
        exact absurd rfl (hys h l rest)
      · rfl]

/-- The `urllib.parse.unquote` on a string given as its list of code points:
`%XX` runs become bytes and are UTF-8-decoded, a `%` not followed by two
hex digits passes through literally, every other character passes through
as itself.  `none` models CPython substituting U+FFFD for an invalid byte
run. -/
def pyUnquote (s : List Nat) : Option (List Nat) :=
  match s with
  | [] => some []
  | 37 :: h :: l :: rest =>
    match hexVal h, hexVal l with
    | some hi, some lo =>
      match utf8DecodeBytes ((hi * 16 + lo) :: (collectPctBytes rest).1) with
      | some cps => (pyUnquote (collectPctBytes rest).2).map (fun cs => cps ++ cs)
      | none => none
    | _, _ => (pyUnquote (h :: l :: rest)).map (fun cs => 37 :: cs)
  | c :: rest => (pyUnquote rest).map (fun cs => c :: cs)
termination_by s.length
decreasing_by
  · have := collectPctBytes_len rest
    simp only [List.length_cons]
    omega
  · simp only [List.length_cons]; omega
  · simp only [List.length_cons]; omega

/-- The percent-escaping of a byte list: every byte as `%XX`. -/
def pctOfBytes (bs : List Nat) : List Nat :=
  (bs.map (fun b => [37, hexUpper (b / 16), hexUpper (b % 16)])).flatten

/-- The UTF-8 encoding of a list of Unicode scalar values. -/
def utf8Bytes (s : List Nat) : List Nat :=
  (s.map utf8EncodeChar).flatten

/-- A code point that `quote` passes through unescaped: a one-byte (ASCII)
character whose byte is in the safe set. -/
def safeCp (c : Nat) : Bool :=
  c < 0x80 && isQuoteSafeByte c

/-- What `TikoAPI.__init__` stores as `self.password` (tiko_api.py line 40):
`urllib.parse.quote(password)`, the password given as its list of
characters. -/
def storePassword (p : List Char) : List Nat :=
  pyQuote (p.map Char.toNat)

/-- The password value `authenticate` places into the `LogIn` request
variables (tiko_api.py line 183): `urllib.parse.unquote(self.password)`. -/
def loginPassword (stored : List Nat) : Option (List Nat) :=
  pyUnquote stored

/-- The `TikoClimate.current_temperature` (climate.py lines 76-79):
`room_data.get("currentTemperatureDegrees")` (default `None`). -/
def current_temperature (st : CoordState) (roomId : String) :
    Except PyExc JVal :=
  pyDictGet (roomDataOf st roomId) "currentTemperatureDegrees" .jnull

/-- The `TikoClimate.target_temperature` (climate.py lines 81-84):
`room_data.get("targetTemperatureDegrees")` (default `None`). -/
def target_temperature (st : CoordState) (roomId : String) :
    Except PyExc JVal :=
  pyDictGet (roomDataOf st roomId) "targetTemperatureDegrees" .jnull

/-- The `TikoClimate.hvac_action` for the room with the given id. -/
def hvac_action (st : CoordState) (roomId : String) : Except PyExc String :=
  hvacActionOf (roomDataOf st roomId)

/-! ## Theorems

Supporting lemmas first (the `quote`/`unquote` round trip needs a chain of
them), then one theorem per specification claim, each with its witness or
counterexample. -/

/-- Upper-case hex encoding and `hexVal` are inverse on digit values. -/
theorem hexVal_hexUpper (x : Nat) (hx : x < 16) :
    hexVal (hexUpper x) = some x := by
  unfold hexUpper hexVal
  split_ifs <;> (congr 1; omega)

/-- Unfolding equation of `utf8DecodeBytes` on a non-empty byte list. -/
theorem utf8DecodeBytes_cons (b : Nat) (rest : List Nat) :
    utf8DecodeBytes (b :: rest) =
      match utf8DecodeOne b rest with
      | some (cp, rest2) => (utf8DecodeBytes rest2).map (fun cs => cp :: cs)
      | none => none := by
  rw [utf8DecodeBytes]
  cases hone : utf8DecodeOne b rest with
  | some v => cases v with
    | mk cp rest2 => simp
  | none => simp

set_option maxRecDepth 16384 in
/-- The `utf8DecodeBytes` undoes `utf8EncodeChar` at the head of a byte list,
for every Unicode scalar value. -/
theorem utf8DecodeBytes_encode_cons (c : Nat) (hc : Nat.isValidChar c)
    (bs : List Nat) :
    utf8DecodeBytes (utf8EncodeChar c ++ bs) =
      (utf8DecodeBytes bs).map (fun cs => c :: cs) := by
  have hlt : c < 0x110000 := by
    rcases hc with h | ⟨_, h⟩ <;> omega
  unfold utf8EncodeChar
  split_ifs with h1 h2 h3
  · simp only [List.cons_append, List.nil_append]
    rw [utf8DecodeBytes_cons]
    have hone : utf8DecodeOne c bs = some (c, bs) := by
      unfold utf8DecodeOne
      rw [if_pos h1]
    rw [hone]
  · simp only [List.cons_append, List.nil_append]
    rw [utf8DecodeBytes_cons]
    have hone : utf8DecodeOne (0xC0 + c / 0x40) ((0x80 + c % 0x40) :: bs) =
        some (c, bs) := by
      unfold utf8DecodeOne
      rw [if_neg (by omega), if_neg (by omega), if_pos (by omega)]
      show (if isCont (0x80 + c % 0x40) = true then
          some ((0xC0 + c / 0x40 - 0xC0) * 0x40 + (0x80 + c % 0x40 - 0x80), bs)
        else none) = some (c, bs)
      rw [if_pos (by
        simp only [isCont, Bool.and_eq_true, decide_eq_true_eq]
        omega)]
      have hv2 : (0xC0 + c / 0x40 - 0xC0) * 0x40 + (0x80 + c % 0x40 - 0x80) =
          c := by omega
      rw [hv2]
    rw [hone]
  · simp only [List.cons_append, List.nil_append]
    rw [utf8DecodeBytes_cons]
    have hone : utf8DecodeOne (0xE0 + c / 0x1000)
        ((0x80 + (c / 0x40) % 0x40) :: (0x80 + c % 0x40) :: bs) =
        some (c, bs) := by
      unfold utf8DecodeOne
      rw [if_neg (by omega), if_neg (by omega), if_neg (by omega),
        if_pos (by omega)]
      show (if (isCont (0x80 + (c / 0x40) % 0x40) &&
            isCont (0x80 + c % 0x40)) = true then
          if 0x800 ≤ (0xE0 + c / 0x1000 - 0xE0) * 0x1000 +
                (0x80 + (c / 0x40) % 0x40 - 0x80) * 0x40 +
                (0x80 + c % 0x40 - 0x80) ∧
              ¬(0xD800 ≤ (0xE0 + c / 0x1000 - 0xE0) * 0x1000 +
                  (0x80 + (c / 0x40) % 0x40 - 0x80) * 0x40 +
                  (0x80 + c % 0x40 - 0x80) ∧
                (0xE0 + c / 0x1000 - 0xE0) * 0x1000 +
                  (0x80 + (c / 0x40) % 0x40 - 0x80) * 0x40 +
                  (0x80 + c % 0x40 - 0x80) < 0xE000) then
            some ((0xE0 + c / 0x1000 - 0xE0) * 0x1000 +
              (0x80 + (c / 0x40) % 0x40 - 0x80) * 0x40 +
              (0x80 + c % 0x40 - 0x80), bs)
          else none
        else none) = some (c, bs)
      have hval : (0xE0 + c / 0x1000 - 0xE0) * 0x1000 +
          (0x80 + (c / 0x40) % 0x40 - 0x80) * 0x40 +
          (0x80 + c % 0x40 - 0x80) = c := by omega
      rw [if_pos (by
        simp only [isCont, Bool.and_eq_true, decide_eq_true_eq]
        omega)]
      rw [hval]
      have hsur : ¬(0xD800 ≤ c ∧ c < 0xE000) := by
        rcases hc with h | ⟨h, _⟩ <;> omega
      rw [if_pos ⟨by omega, hsur⟩]
    rw [hone]
  · simp only [List.cons_append, List.nil_append]
    rw [utf8DecodeBytes_cons]
    have hone : utf8DecodeOne (0xF0 + c / 0x40000)
        ((0x80 + (c / 0x1000) % 0x40) :: (0x80 + (c / 0x40) % 0x40) ::
          (0x80 + c % 0x40) :: bs) = some (c, bs) := by
      unfold utf8DecodeOne
      rw [if_neg (by omega), if_neg (by omega), if_neg (by omega),
        if_neg (by omega), if_pos (by omega)]
      show (if (isCont (0x80 + (c / 0x1000) % 0x40) &&
            isCont (0x80 + (c / 0x40) % 0x40) &&
            isCont (0x80 + c % 0x40)) = true then
          if 0x10000 ≤ (0xF0 + c / 0x40000 - 0xF0) * 0x40000 +
                (0x80 + (c / 0x1000) % 0x40 - 0x80) * 0x1000 +
                (0x80 + (c / 0x40) % 0x40 - 0x80) * 0x40 +
                (0x80 + c % 0x40 - 0x80) ∧
              (0xF0 + c / 0x40000 - 0xF0) * 0x40000 +
                (0x80 + (c / 0x1000) % 0x40 - 0x80) * 0x1000 +
                (0x80 + (c / 0x40) % 0x40 - 0x80) * 0x40 +
                (0x80 + c % 0x40 - 0x80) < 0x110000 then
            some ((0xF0 + c / 0x40000 - 0xF0) * 0x40000 +
              (0x80 + (c / 0x1000) % 0x40 - 0x80) * 0x1000 +
              (0x80 + (c / 0x40) % 0x40 - 0x80) * 0x40 +
              (0x80 + c % 0x40 - 0x80), bs)
          else none
        else none) = some (c, bs)
      have hval : (0xF0 + c / 0x40000 - 0xF0) * 0x40000 +
          (0x80 + (c / 0x1000) % 0x40 - 0x80) * 0x1000 +
          (0x80 + (c / 0x40) % 0x40 - 0x80) * 0x40 +
          (0x80 + c % 0x40 - 0x80) = c := by omega
      rw [if_pos (by
        simp only [isCont, Bool.and_eq_true, decide_eq_true_eq]
        omega)]
      rw [hval]
      rw [if_pos ⟨by omega, by omega⟩]
    rw [hone]

/-- The `collectPctBytes` consumes nothing from a list that does not start
with `%`. -/
theorem collectPctBytes_ne37 (c : Nat) (t : List Nat) (hc : c ≠ 37) :
    collectPctBytes (c :: t) = ([], c :: t) := by
  unfold collectPctBytes
  split
  · rename_i h l rest heq
    injection heq with h1 h2
    exact absurd h1 hc
  · rfl

/-- The `collectPctBytes` turns the percent-escaping of a byte list back into
the bytes, stopping exactly at a remainder it cannot consume. -/
theorem collectPctBytes_pct (bs : List Nat) (h256 : ∀ b ∈ bs, b < 256)
    (t : List Nat) (ht : collectPctBytes t = ([], t)) :
    collectPctBytes (pctOfBytes bs ++ t) = (bs, t) := by
  induction bs with
  | nil => simpa [pctOfBytes] using ht
  | cons b bs2 ih =>
    have hb : b < 256 := h256 b (by simp)
    have hbs2 : ∀ x ∈ bs2, x < 256 := fun x hx => h256 x (by simp [hx])
    have hstep : pctOfBytes (b :: bs2) ++ t =
        37 :: hexUpper (b / 16) :: hexUpper (b % 16) :: (pctOfBytes bs2 ++ t) := by
      simp [pctOfBytes]
    rw [hstep]
    rw [collectPctBytes]
    rw [hexVal_hexUpper (b / 16) (by omega), hexVal_hexUpper (b % 16) (by omega)]
    simp only
    rw [ih hbs2]
    have : b / 16 * 16 + b % 16 = b := by omega
    rw [this]

/-- Unfolding equation of `pyUnquote` on the empty string. -/
theorem pyUnquote_nil : pyUnquote [] = some [] := by
  rw [pyUnquote]

/-- The `pyUnquote` passes a non-`%` character through. -/
theorem pyUnquote_cons_ne37 (c : Nat) (rest : List Nat) (hc : c ≠ 37) :
    pyUnquote (c :: rest) = (pyUnquote rest).map (fun cs => c :: cs) := by
  rw [pyUnquote]
  intro h l rest1 hc2 hr
  exact absurd hc2 hc

/-- The `pyUnquote` on a `%XX` escape with two valid hex digits: the whole
leading escape run is collected and UTF-8-decoded. -/
theorem pyUnquote_pct (h l : Nat) (rest : List Nat) (hi lo : Nat)
    (hh : hexVal h = some hi) (hl : hexVal l = some lo) :
    pyUnquote (37 :: h :: l :: rest) =
      match utf8DecodeBytes ((hi * 16 + lo) :: (collectPctBytes rest).1) with
      | some cps => (pyUnquote (collectPctBytes rest).2).map (fun cs => cps ++ cs)
      | none => none := by
  rw [pyUnquote]
  simp only [hh, hl]

/-- Membership characterization of the safe-byte test. -/
theorem isQuoteSafeByte_iff (b : Nat) :
    isQuoteSafeByte b = true ↔
      (0x41 ≤ b ∧ b ≤ 0x5A) ∨ (0x61 ≤ b ∧ b ≤ 0x7A) ∨
        (0x30 ≤ b ∧ b ≤ 0x39) ∨ b = 0x5F ∨ b = 0x2E ∨ b = 0x2D ∨
        b = 0x7E ∨ b = 0x2F := by
  simp only [isQuoteSafeByte, Bool.or_eq_true, Bool.and_eq_true,
    decide_eq_true_eq, beq_iff_eq]
  omega

/-- Every byte at or above `0x80` is escaped by `quote`. -/
theorem isQuoteSafeByte_false_of_ge (b : Nat) (hb : 0x80 ≤ b) :
    isQuoteSafeByte b = false := by
  cases hqs : isQuoteSafeByte b
  · rfl
  · have := (isQuoteSafeByte_iff b).mp hqs
    omega

/-- The UTF-8 encoding of a code point is never empty. -/
theorem utf8EncodeChar_ne_nil (c : Nat) : utf8EncodeChar c ≠ [] := by
  unfold utf8EncodeChar
  split_ifs <;> simp

/-- All bytes of the UTF-8 encoding of a code point below U+110000 fit in
a byte. -/
theorem utf8EncodeChar_lt256 (c : Nat) (hc : c < 0x110000) :
    ∀ b ∈ utf8EncodeChar c, b < 256 := by
  intro b hb
  unfold utf8EncodeChar at hb
  split_ifs at hb with h1 h2 h3
  · simp only [List.mem_singleton] at hb
    omega
  · simp only [List.mem_cons, List.mem_singleton, List.not_mem_nil,
      or_false] at hb
    rcases hb with rfl | rfl <;> omega
  · simp only [List.mem_cons, List.mem_singleton, List.not_mem_nil,
      or_false] at hb
    rcases hb with rfl | rfl | rfl <;> omega
  · simp only [List.mem_cons, List.mem_singleton, List.not_mem_nil,
      or_false] at hb
    rcases hb with rfl | rfl | rfl | rfl <;> omega

/-- Every byte of the encoding of a code point that `quote` does not pass
through is escaped. -/
theorem utf8EncodeChar_escaped (c : Nat) (hc : safeCp c = false) :
    ∀ b ∈ utf8EncodeChar c, isQuoteSafeByte b = false := by
  intro b hb
  by_cases h1 : c < 0x80
  · unfold utf8EncodeChar at hb
    rw [if_pos h1] at hb
    simp only [List.mem_singleton] at hb
    subst hb
    simpa [safeCp, h1] using hc
  · have hb128 : 0x80 ≤ b := by
      unfold utf8EncodeChar at hb
      rw [if_neg h1] at hb
      split_ifs at hb
      · simp only [List.mem_cons, List.mem_singleton, List.not_mem_nil,
          or_false] at hb
        rcases hb with rfl | rfl <;> omega
      · simp only [List.mem_cons, List.mem_singleton, List.not_mem_nil,
          or_false] at hb
        rcases hb with rfl | rfl | rfl <;> omega
      · simp only [List.mem_cons, List.mem_singleton, List.not_mem_nil,
          or_false] at hb
        rcases hb with rfl | rfl | rfl | rfl <;> omega
    exact isQuoteSafeByte_false_of_ge b hb128

/-- The `pyQuote` distributes over append. -/
theorem pyQuote_append (a b : List Nat) :
    pyQuote (a ++ b) = pyQuote a ++ pyQuote b := by
  simp [pyQuote]

/-- The `pyQuote` on a cons: the head character's quoted chunk followed by the
quoted tail. -/
theorem pyQuote_cons (c : Nat) (s : List Nat) :
    pyQuote (c :: s) =
      ((utf8EncodeChar c).map quoteByte).flatten ++ pyQuote s := by
  simp [pyQuote]

/-- A safe character's quoted chunk is the character itself. -/
theorem quoteChunk_safe (c : Nat) (h : safeCp c = true) :
    ((utf8EncodeChar c).map quoteByte).flatten = [c] := by
  simp only [safeCp, Bool.and_eq_true, decide_eq_true_eq] at h
  unfold utf8EncodeChar
  rw [if_pos h.1]
  simp [quoteByte, h.2]

/-- Quoting bytes that are all escaped is exactly percent-escaping them. -/
theorem quoteBytes_all_escaped (bs : List Nat)
    (h : ∀ b ∈ bs, isQuoteSafeByte b = false) :
    (bs.map quoteByte).flatten = pctOfBytes bs := by
  induction bs with
  | nil => simp [pctOfBytes]
  | cons b bs2 ih =>
    have hb := h b (by simp)
    have hbs2 : ∀ x ∈ bs2, isQuoteSafeByte x = false :=
      fun x hx => h x (List.mem_cons_of_mem _ hx)
    simp only [List.map_cons, List.flatten_cons, pctOfBytes]
    rw [ih hbs2]
    simp [quoteByte, hb, pctOfBytes]

/-- The `pctOfBytes` distributes over append. -/
theorem pctOfBytes_append (a b : List Nat) :
    pctOfBytes (a ++ b) = pctOfBytes a ++ pctOfBytes b := by
  simp [pctOfBytes]

/-- The `utf8Bytes` on a cons. -/
theorem utf8Bytes_cons (c : Nat) (s : List Nat) :
    utf8Bytes (c :: s) = utf8EncodeChar c ++ utf8Bytes s := by
  simp [utf8Bytes]

/-- A run of characters `quote` escapes is quoted as the percent-escaping
of its UTF-8 bytes. -/
theorem pyQuote_unsafeRun (us : List Nat) (h : ∀ c ∈ us, safeCp c = false) :
    pyQuote us = pctOfBytes (utf8Bytes us) := by
  induction us with
  | nil => simp [pyQuote, utf8Bytes, pctOfBytes]
  | cons c us2 ih =>
    have hc := h c (by simp)
    have hus2 : ∀ x ∈ us2, safeCp x = false :=
      fun x hx => h x (List.mem_cons_of_mem _ hx)
    rw [pyQuote_cons, utf8Bytes_cons, pctOfBytes_append, ih hus2]
    rw [quoteBytes_all_escaped (utf8EncodeChar c) (utf8EncodeChar_escaped c hc)]

/-- UTF-8 decoding undoes `utf8Bytes` in front of any byte list. -/
theorem utf8DecodeBytes_utf8Bytes_append (us : List Nat)
    (h : ∀ c ∈ us, Nat.isValidChar c) (bs : List Nat) :
    utf8DecodeBytes (utf8Bytes us ++ bs) =
      (utf8DecodeBytes bs).map (fun cs => us ++ cs) := by
  induction us with
  | nil =>
    simp only [utf8Bytes, List.map_nil, List.flatten_nil, List.nil_append]
    cases utf8DecodeBytes bs <;> simp
  | cons c us2 ih =>
    have hc := h c (by simp)
    have hus2 : ∀ x ∈ us2, Nat.isValidChar x :=
      fun x hx => h x (List.mem_cons_of_mem _ hx)
    rw [utf8Bytes_cons, List.append_assoc,
      utf8DecodeBytes_encode_cons c hc, ih hus2]
    cases utf8DecodeBytes bs <;> simp

/-- The `pyUnquote` on a maximal percent-escape run followed by a remainder it
does not consume: the run's bytes are UTF-8-decoded as one block. -/
theorem pyUnquote_pctRun (b : Nat) (bs2 : List Nat)
    (h256 : ∀ x ∈ b :: bs2, x < 256) (t : List Nat)
    (ht : collectPctBytes t = ([], t)) :
    pyUnquote (pctOfBytes (b :: bs2) ++ t) =
      match utf8DecodeBytes (b :: bs2) with
      | some cps => (pyUnquote t).map (fun cs => cps ++ cs)
      | none => none := by
  have hb : b < 256 := h256 b (by simp)
  have hbs2 : ∀ x ∈ bs2, x < 256 :=
    fun x hx => h256 x (List.mem_cons_of_mem _ hx)
  have hstep : pctOfBytes (b :: bs2) ++ t =
      37 :: hexUpper (b / 16) :: hexUpper (b % 16) :: (pctOfBytes bs2 ++ t) := by
    simp [pctOfBytes]
  rw [hstep]
  rw [pyUnquote_pct (hexUpper (b / 16)) (hexUpper (b % 16))
    (pctOfBytes bs2 ++ t) (b / 16) (b % 16)
    (hexVal_hexUpper (b / 16) (by omega)) (hexVal_hexUpper (b % 16) (by omega))]
  rw [collectPctBytes_pct bs2 hbs2 t ht]
  have hbb : b / 16 * 16 + b % 16 = b := by omega
  rw [hbb]

/-- The head of a `dropWhile` remainder fails the predicate. -/
theorem dropWhile_head_false (p : Nat → Bool) :
    ∀ (l : List Nat) (x : Nat) (xs : List Nat),
      l.dropWhile p = x :: xs → p x = false := by
  intro l
  induction l with
  | nil => intro x xs h; exact absurd h (by simp)
  | cons a l2 ih =>
    intro x xs h
    rw [List.dropWhile_cons] at h
    split_ifs at h with ha
    · exact ih x xs h
    · injection h with h1 h2
      subst h1
      exact Bool.eq_false_iff.mpr ha

/-- The `quote`/`unquote` round trip on lists of Unicode scalar values:
auxiliary form with an explicit length bound for the strong induction. -/
theorem pyUnquote_pyQuote_aux (n : Nat) :
    ∀ (s : List Nat), s.length ≤ n → (∀ c ∈ s, Nat.isValidChar c) →
      pyUnquote (pyQuote s) = some s := by
  induction n with
  | zero =>
    intro s hlen hval
    have hnil : s = [] := List.length_eq_zero.mp (Nat.le_zero.mp hlen)
    subst hnil
    rw [show pyQuote [] = [] from by simp [pyQuote]]
    exact pyUnquote_nil
  | succ n ih =>
    intro s hlen hval
    match s with
    | [] =>
      rw [show pyQuote [] = [] from by simp [pyQuote]]
      exact pyUnquote_nil
    | c :: s1 =>
      have hval1 : ∀ x ∈ s1, Nat.isValidChar x :=
        fun x hx => hval x (List.mem_cons_of_mem _ hx)
      have hlen1 : s1.length ≤ n := by
        simp only [List.length_cons] at hlen
        omega
      by_cases hsafe : safeCp c = true
      · -- the head character passes through unescaped
        have hq : pyQuote (c :: s1) = c :: pyQuote s1 := by
          rw [pyQuote_cons, quoteChunk_safe c hsafe]
          rfl
        have hc37 : c ≠ 37 := by
          intro hcc
          subst hcc
          exact absurd hsafe (by decide)
        rw [hq, pyUnquote_cons_ne37 c (pyQuote s1) hc37, ih s1 hlen1 hval1]
        rfl
      · -- the head starts a maximal escaped run
        have hsafe0 : safeCp c = false := Bool.eq_false_iff.mpr hsafe
        have hsplit : (c :: s1.takeWhile (fun x => !safeCp x)) ++
            s1.dropWhile (fun x => !safeCp x) = c :: s1 := by
          rw [List.cons_append, List.takeWhile_append_dropWhile]
        have husue : ∀ x ∈ c :: s1.takeWhile (fun x => !safeCp x),
            safeCp x = false := by
          intro x hx
          rcases List.mem_cons.mp hx with rfl | hx2
          · exact hsafe0
          · have hpx := List.mem_takeWhile_imp hx2
            simpa using hpx
        have husval : ∀ x ∈ c :: s1.takeWhile (fun x => !safeCp x),
            Nat.isValidChar x := by
          intro x hx
          rcases List.mem_cons.mp hx with rfl | hx2
          · exact hval x (List.mem_cons_self _ _)
          · exact hval1 x (List.takeWhile_subset _ hx2)
        have hl2val : ∀ x ∈ s1.dropWhile (fun x => !safeCp x),
            Nat.isValidChar x := by
          intro x hx
          exact hval1 x ((List.dropWhile_sublist _).subset hx)
        have hl2len : (s1.dropWhile (fun x => !safeCp x)).length ≤ n := by
          have hd1 : (s1.dropWhile (fun x => !safeCp x)).length ≤ s1.length :=
            (List.dropWhile_sublist _).length_le
          omega
        have hq : pyQuote (c :: s1) =
            pctOfBytes (utf8Bytes (c :: s1.takeWhile (fun x => !safeCp x))) ++
              pyQuote (s1.dropWhile (fun x => !safeCp x)) := by
          conv_lhs => rw [← hsplit]
          rw [pyQuote_append, pyQuote_unsafeRun _ husue]
        -- the quoted remainder cannot extend the escape run
        have hstop :
            collectPctBytes (pyQuote (s1.dropWhile (fun x => !safeCp x))) =
              ([], pyQuote (s1.dropWhile (fun x => !safeCp x))) := by
          match hmatch : s1.dropWhile (fun x => !safeCp x) with
          | [] =>
            simp [pyQuote, collectPctBytes]
          | d :: l3 =>
            have hd : safeCp d = true := by
              have hdf := dropWhile_head_false (fun x => !safeCp x) s1 d l3 hmatch
              simpa using hdf
            have hqd : pyQuote (d :: l3) = d :: pyQuote l3 := by
              rw [pyQuote_cons, quoteChunk_safe d hd]
              rfl
            rw [hqd]
            refine collectPctBytes_ne37 d (pyQuote l3) ?hne
            intro hdd
            subst hdd
            exact absurd hd (by decide)
        -- the escape run is non-empty: it starts with the bytes of `c`
        match hbytes : utf8Bytes (c :: s1.takeWhile (fun x => !safeCp x)) with
        | [] =>
          exfalso
          rw [utf8Bytes_cons] at hbytes
          exact utf8EncodeChar_ne_nil c (List.append_eq_nil.mp hbytes).1
        | b :: bsr =>
          have h256 : ∀ x ∈ b :: bsr, x < 256 := by
            rw [← hbytes]
            intro x hx
            rw [utf8Bytes] at hx
            obtain ⟨bl, hbl, hxbl⟩ := List.mem_flatten.mp hx
            obtain ⟨cc, hcc, hccbl⟩ := List.mem_map.mp hbl
            subst hccbl
            have hccv := husval cc hcc
            have hcc17 : cc < 0x110000 := by
              rcases hccv with hy | ⟨_, hy⟩ <;> omega
            exact utf8EncodeChar_lt256 cc hcc17 x hxbl
          have hdecus :
              utf8DecodeBytes
                  (utf8Bytes (c :: s1.takeWhile (fun x => !safeCp x))) =
                some (c :: s1.takeWhile (fun x => !safeCp x)) := by
            have h0 := utf8DecodeBytes_utf8Bytes_append
              (c :: s1.takeWhile (fun x => !safeCp x)) husval []
            rw [List.append_nil] at h0
            rw [h0]
            rw [show utf8DecodeBytes [] = some [] from by rw [utf8DecodeBytes]]
            simp
          rw [hq, hbytes]
          rw [pyUnquote_pctRun b bsr h256 _ hstop]
          rw [← hbytes, hdecus]
          rw [ih _ hl2len hl2val]
          simp only [Option.map_some']
          rw [hsplit]

/-- The `quote`/`unquote` round trip on lists of Unicode scalar values. -/
theorem pyUnquote_pyQuote (s : List Nat)
    (hval : ∀ c ∈ s, Nat.isValidChar c) :
    pyUnquote (pyQuote s) = some s :=
  pyUnquote_pyQuote_aux s.length s (le_refl _) hval

/-- A successful key lookup means the key is among the dictionary's keys. -/
theorem lookupKey_contains (fs : List (String × JVal)) (k : String) (v : JVal)
    (h : lookupKey fs k = some v) : (fs.map Prod.fst).contains k = true := by
  induction fs with
  | nil => exact absurd h (by simp [lookupKey])
  | cons p rest ih =>
    match p with
    | (k1, v1) =>
      rw [lookupKey] at h
      by_cases hk : k1 = k
      · simp [hk]
      · rw [if_neg hk] at h
        rw [List.map_cons, List.contains_cons, ih h, Bool.or_true]

/-- Evaluation of `pyGetItem` on a dictionary with the key present. -/
theorem pyGetItem_obj (fs : List (String × JVal)) (k : String) (v : JVal)
    (h : lookupKey fs k = some v) : pyGetItem (.jobj fs) k = .ok v := by
  simp [pyGetItem, h]

/-- C10: the password round trip.  `TikoAPI.__init__` stores
`urllib.parse.quote(password)` and `authenticate` sends
`urllib.parse.unquote` of the stored value, and `unquote (quote p) = p`
for every string `p` (as its list of Unicode scalar values), including
passwords containing percent signs or other special characters: the
password placed into the `LogIn` request variables equals the one supplied
at construction. -/
theorem C10_password_quote_unquote_roundtrip (p : List Char) :
    loginPassword (storePassword p) = some (p.map Char.toNat) := by
  unfold loginPassword storePassword
  apply pyUnquote_pyQuote
  intro c hc
  obtain ⟨ch, hch, rfl⟩ := List.mem_map.mp hc
  exact ch.valid

/-- C5: the mode mapping between the service-side vocabulary
(`"on"`/`"off"`/`"frost"`/`"absence"`, where `MODE_NORMAL = "on"`) and the
climate-facing vocabulary (`"heat"`/`"off"`/`"eco"`/`"away"`) is a
bijection and its own inverse pair: `TIKO_MODE_MAP` maps each climate-side
mode to exactly one service mode and `TIKO_MODE_MAP[HA_MODE_MAP[m]] = m`
for each of the four service modes (in particular `"frost"` corresponds to
`"eco"` in both directions). -/
theorem C5_mode_map_roundtrip :
    (strLookup HA_MODE_MAP MODE_NORMAL = some "heat"
      ∧ strLookup HA_MODE_MAP MODE_OFF = some "off"
      ∧ strLookup HA_MODE_MAP MODE_FROST = some "eco"
      ∧ strLookup HA_MODE_MAP MODE_ABSENCE = some "away")
    ∧ (strLookup TIKO_MODE_MAP "heat" = some MODE_NORMAL
      ∧ strLookup TIKO_MODE_MAP "off" = some MODE_OFF
      ∧ strLookup TIKO_MODE_MAP "eco" = some MODE_FROST
      ∧ strLookup TIKO_MODE_MAP "away" = some MODE_ABSENCE)
    ∧ HA_MODE_MAP.map Prod.fst = [ MODE_NORMAL, MODE_OFF, MODE_FROST, MODE_ABSENCE]
    ∧ TIKO_MODE_MAP.map Prod.fst = ["heat", "off", "eco", "away"] := by
  decide

/-- C6: a structured reply whose application-level `errors` list has a
first message containing `"Limite de taux atteinte"` makes `_make_request`
fail with `TikoRateLimitError` carrying that message — and never with
`TikoAuthenticationError` — even for a login call (the `POST` to the
GraphQL endpoint used by `LogIn`). -/
theorem C6_rate_limit_classification (resp : HttpResponse)
    (fs e0fs : List (String × JVal)) (es : List JVal) (m : String)
    (hst : resp.status < 400)
    (hct : strContains resp.contentType "application/json" = true)
    (hbody : resp.body = some (.jobj fs))
    (herrs : lookupKey fs "errors" = some (.jarr (.jobj e0fs :: es)))
    (hmsg : lookupKey e0fs "message" = some (.jstr m))
    (hsub : strContains m "Limite de taux atteinte" = true) :
    makeRequest "POST" tikoApiUrl resp = .error (.tikoRateLimitError m)
    ∧ ∀ m2 : String,
        makeRequest "POST" tikoApiUrl resp ≠ .error (.tikoAuthError m2) := by
  have h1 : ¬(resp.status ≥ 400) := by omega
  have h2 : ¬("POST" = "GET" ∧ tikoApiUrl = tikoBaseUrl) := by
    intro hcon
    exact absurd hcon.1 (by decide)
  have h3 : ¬¬(strContains resp.contentType "application/json" = true) := by
    simp [hct]
  have hcont : pyContains (.jobj fs) "errors" = .ok true := by
    show Except.ok ((fs.map Prod.fst).contains "errors") = Except.ok true
    rw [lookupKey_contains fs "errors" _ herrs]
  have hchain : (do
      let errs ← pyGetItem (JVal.jobj fs) "errors"
      let e0 ← pyIndex errs 0
      pyGetItem e0 "message" : Except PyExc JVal) = .ok (.jstr m) := by
    rw [pyGetItem_obj fs "errors" _ herrs]
    show (do
      let e0 ← pyIndex (JVal.jarr (JVal.jobj e0fs :: es)) 0
      pyGetItem e0 "message" : Except PyExc JVal) = .ok (.jstr m)
    rw [show pyIndex (JVal.jarr (JVal.jobj e0fs :: es)) 0 =
      .ok (.jobj e0fs) from rfl]
    show pyGetItem (JVal.jobj e0fs) "message" = .ok (.jstr m)
    exact pyGetItem_obj e0fs "message" _ hmsg
  have hres : makeRequest "POST" tikoApiUrl resp =
      .error (.tikoRateLimitError m) := by
    unfold makeRequest
    rw [if_neg h1, if_neg h2, if_neg h3, hbody]
    show (match pyContains (.jobj fs) "errors" with
      | .error e => .error e
      | .ok true =>
        match (do
            let errs ← pyGetItem (JVal.jobj fs) "errors"
            let e0 ← pyIndex errs 0
            pyGetItem e0 "message" : Except PyExc JVal) with
        | .error e => .error e
        | .ok emsg =>
          match emsg with
          | .jstr m3 =>
            if strContains m3 "Limite de taux atteinte" then
              .error (.tikoRateLimitError m3)
            else if strContains m3 "Invalid credentials" then
              .error (.tikoAuthError m3)
            else
              .error (.clientError m3)
          | _ => .error .typeError
      | .ok false => .ok (.jobj fs) : Except PyExc JVal) =
      .error (.tikoRateLimitError m)
    rw [hcont, hchain]
    show (if strContains m "Limite de taux atteinte" then
        (.error (.tikoRateLimitError m) : Except PyExc JVal)
      else if strContains m "Invalid credentials" then
        .error (.tikoAuthError m)
      else
        .error (.clientError m)) = .error (.tikoRateLimitError m)
    rw [if_pos (by simp [hsub])]
  refine ⟨hres, ?hne⟩
  intro m2
  rw [hres]
  intro hcon
  injection hcon with hcon2
  exact PyExc.noConfusion hcon2

/-- Witness for C6: a concrete 200-status JSON login reply whose first
application-level error message is the rate-limit text. -/
theorem C6_rate_limit_classification_witness :
    makeRequest "POST" tikoApiUrl
      { status := 200, contentType := "application/json",
        body := some (.jobj [("errors",
          .jarr [.jobj [("message", .jstr "Limite de taux atteinte")]])]) } =
      .error (.tikoRateLimitError "Limite de taux atteinte") :=
  (C6_rate_limit_classification
    { status := 200, contentType := "application/json",
      body := some (.jobj [("errors",
        .jarr [.jobj [("message", .jstr "Limite de taux atteinte")]])]) }
    [("errors", .jarr [.jobj [("message", .jstr "Limite de taux atteinte")]])]
    [("message", .jstr "Limite de taux atteinte")] []
    "Limite de taux atteinte"
    (by decide) (by decide) rfl rfl rfl (by decide)).1

/-- C8: on a success-status reply whose `Content-Type` does not indicate
JSON, `_make_request` for a `POST` fails with the content-type
`ClientError` (a transport error) instead of returning a result, while
the initial `GET` of the base URL is exempt from the check and returns
`{}` whatever the reply's content type. -/
theorem C8_content_type_guard (url : String) (resp resp2 : HttpResponse)
    (hst : resp.status < 400)
    (hct : strContains resp.contentType "application/json" = false)
    (hst2 : resp2.status < 400) :
    makeRequest "POST" url resp =
      .error (.clientError
        (String.append "Unexpected content type: " resp.contentType))
    ∧ makeRequest "GET" tikoBaseUrl resp2 = .ok (.jobj []) := by
  constructor
  · unfold makeRequest
    rw [if_neg (by omega)]
    rw [if_neg (by intro hcon; exact absurd hcon.1 (by decide))]
    rw [if_pos (by simp [hct])]
  · unfold makeRequest
    rw [if_neg (by omega), if_pos ⟨rfl, rfl⟩]

/-- Witness for C8: a 200-status HTML reply to a `POST` is rejected as a
transport error, and a 200-status HTML reply to the initial `GET` of the
base URL yields `{}`. -/
theorem C8_content_type_guard_witness :
    makeRequest "POST" tikoApiUrl
      { status := 200, contentType := "text/html", body := none } =
      .error (.clientError "Unexpected content type: text/html")
    ∧ makeRequest "GET" tikoBaseUrl
      { status := 200, contentType := "text/html", body := none } =
      .ok (.jobj []) :=
  C8_content_type_guard tikoApiUrl
    { status := 200, contentType := "text/html", body := none }
    { status := 200, contentType := "text/html", body := none }
    (by decide) (by decide) (by decide)

/-- C2 (amended): for every login reply that is well-formed except that the
user's `properties` list is empty, `authenticate` fails with `IndexError`
(`list index out of range`) — not with `TikoAuthenticationError` — and the
reply's token HAS already been stored on the API object (with the user id),
so `hasattr(api, "token")` holds afterwards and subsequent refresh cycles
treat the client as authenticated; the `Authorization` header and
`property_id` are not set. -/
theorem C2_empty_properties_behavior (st : ApiState)
    (getResp loginResp : HttpResponse) (g : JVal)
    (rfs dfs lfs ufs : List (String × JVal)) (tok uid : JVal)
    (hget : makeRequest "GET" tikoBaseUrl getResp = .ok g)
    (hpost : makeRequest "POST" tikoApiUrl loginResp = .ok (.jobj rfs))
    (hdata : lookupKey rfs "data" = some (.jobj dfs))
    (hlogin : lookupKey dfs "logIn" = some (.jobj lfs))
    (htok : lookupKey lfs "token" = some tok)
    (huser : lookupKey lfs "user" = some (.jobj ufs))
    (huid : lookupKey ufs "id" = some uid)
    (hprops : lookupKey ufs "properties" = some (.jarr [])) :
    authenticate st getResp loginResp =
      ({ st with token := some tok, userId := some uid },
       some (.indexError "list index out of range")) := by
  have hne : lfs.isEmpty = false := by
    cases lfs with
    | nil =>
      rw [lookupKey] at htok
      exact Option.noConfusion htok
    | cons a l => rfl
  unfold authenticate
  rw [hget, hpost]
  simp only [pyDictGet, pyGetItem, pyIndex, hdata, hlogin, htok, huser, huid,
    hprops, Option.getD_some, JVal.truthy, hne, Bool.not_false,
    Bool.not_true, bind, Except.bind]
  simp [JVal.truthy, hne]

/-- Counterexample for C2 as stated: a concrete login reply whose user has
an empty `properties` list makes `authenticate` raise `IndexError`, not
`TikoAuthenticationError`, and leaves the token assigned on the API
object. -/
theorem C2_empty_properties_counterexample :
    authenticate apiInit
        { status := 200, contentType := "application/json",
          body := some (.jobj []) }
        { status := 200, contentType := "application/json",
          body := some (.jobj [("data", .jobj [("logIn", .jobj
            [("token", .jstr "tok123"),
             ("user", .jobj [("id", .jint 7),
               ("properties", .jarr [])])])])]) } =
      ({ token := some (.jstr "tok123"), userId := some (.jint 7),
         propertyId := none, authHeaderToken := none },
       some (.indexError "list index out of range"))
    ∧ (authenticate apiInit
        { status := 200, contentType := "application/json",
          body := some (.jobj []) }
        { status := 200, contentType := "application/json",
          body := some (.jobj [("data", .jobj [("logIn", .jobj
            [("token", .jstr "tok123"),
             ("user", .jobj [("id", .jint 7),
               ("properties", .jarr [])])])])]) }).2 ≠
      some (.tikoAuthError "Authentication failed") := by
  constructor
  · rfl
  · decide

/-- With a token already present, a cycle goes straight to the fetch
(lines 52-53 are skipped). -/
theorem asyncUpdateData_with_token (st : CoordState) (env : UpdateEnv)
    (tok : JVal) (htok : st.apiToken = some tok) :
    asyncUpdateData st env = runFetch st 0 env := by
  unfold asyncUpdateData
  rw [htok]
  rfl

/-- The `processCycle` reports the authentication count it was given. -/
theorem processCycle_authCalls (st2 : CoordState) (n2 : Nat) (r d : JVal) :
    (processCycle st2 n2 r d).authCalls = n2 := by
  unfold processCycle
  split
  · rfl
  · split <;> rfl

/-- The `finishFetch` reports the authentication count it was given. -/
theorem finishFetch_authCalls (st2 : CoordState) (n2 : Nat)
    (f : Except PyExc (JVal × JVal)) :
    (finishFetch st2 n2 f).authCalls = n2 := by
  unfold finishFetch
  split
  · rfl
  · apply processCycle_authCalls

/-- The outer handler wraps every non-`ConfigEntryAuthFailed` exception
into `UpdateFailed` with the communication-error message. -/
theorem wrapOuter_ne_config (e : PyExc)
    (h : e ≠ .configEntryAuthFailedExc) :
    wrapOuter e = .updateFailedExc
      (String.append "Error communicating with API: " e.str) := by
  cases e <;> first
    | rfl
    | exact absurd rfl h

/-- C4: after a previous snapshot, a cycle whose dual fetch fails with a
`ClientError` (transport/HTTP/decoding failure) not classified as
authentication-expired leaves the whole coordinator state — rooms map and
devices map — exactly as it was, performs no re-authentication, and raises
`UpdateFailed` wrapping the transport error. -/
theorem C4_transport_failure_retains_snapshot (st : CoordState)
    (env : UpdateEnv) (tok : JVal) (msg : String)
    (htok : st.apiToken = some tok)
    (hf : env.fetch1 = .error (.clientError msg))
    (hc : strContains msg "Authentication failed" = false) :
    asyncUpdateData st env =
      { state := st,
        outcome := .error (.updateFailedExc
          (String.append "Error communicating with API: " msg)),
        authCalls := 0 } := by
  rw [asyncUpdateData_with_token st env tok htok]
  have hrf : runFetch st 0 env = runFetchErr st 0 env (.clientError msg) := by
    unfold runFetch
    rw [hf]
  rw [hrf]
  unfold runFetchErr
  rw [if_pos (by simp [PyExc.str, hc])]
  rfl

/-- Witness for C4: a concrete state with a retained snapshot and a
concrete timed-out fetch. -/
theorem C4_transport_failure_retains_snapshot_witness :
    asyncUpdateData
      { apiToken := some (.jstr "tk"), rooms := [("1", .jnull)],
        devices := [("9", .jnull)] }
      { auth1 := { exc := none, setsToken := none },
        fetch1 := .error (.clientError "Connection timeout"),
        auth2 := { exc := none, setsToken := none },
        fetch2 := .ok (.jnull, .jnull) } =
      { state :=
          { apiToken := some (.jstr "tk"), rooms := [("1", .jnull)],
            devices := [("9", .jnull)] },
        outcome := .error (.updateFailedExc
          (String.append "Error communicating with API: " "Connection timeout")),
        authCalls := 0 } :=
  C4_transport_failure_retains_snapshot
    { apiToken := some (.jstr "tk"), rooms := [("1", .jnull)],
      devices := [("9", .jnull)] }
    { auth1 := { exc := none, setsToken := none },
      fetch1 := .error (.clientError "Connection timeout"),
      auth2 := { exc := none, setsToken := none },
      fetch2 := .ok (.jnull, .jnull) }
    (.jstr "tk") "Connection timeout" rfl rfl (by decide)

/-- The re-authentication call only touches the API token attribute: the
rooms and devices maps pass through `applyAuth` unchanged. -/
theorem applyAuth_maps (s : CoordState) (a : AuthOutcome) :
    (applyAuth s a).rooms = s.rooms ∧ (applyAuth s a).devices = s.devices := by
  unfold applyAuth
  split <;> exact ⟨rfl, rfl⟩

/-- Evaluation of `finishFetch` on an escaping exception: the state (both
maps) is untouched. -/
theorem finishFetch_error (st2 : CoordState) (n2 : Nat) (e : PyExc) :
    finishFetch st2 n2 (.error e) =
      { state := st2, outcome := .error (wrapOuter e), authCalls := n2 } :=
  rfl

/-- Evaluation of `finishFetch` when the rooms reply fails its processing:
the state (both maps) is untouched. -/
theorem finishFetch_rooms_bad (st2 : CoordState) (n2 : Nat) (r d : JVal)
    (e : PyExc) (hr : processRooms r = .error e) :
    finishFetch st2 n2 (.ok (r, d)) =
      { state := st2, outcome := .error (wrapOuter e), authCalls := n2 } := by
  show processCycle st2 n2 r d = _
  unfold processCycle
  rw [hr]

/-- Evaluation of `finishFetch` when the rooms reply processes but the
devices reply fails: the rooms map has already been replaced. -/
theorem finishFetch_devices_bad (st2 : CoordState) (n2 : Nat) (r d : JVal)
    (R : List (String × JVal)) (e : PyExc)
    (hr : processRooms r = .ok R) (hd : processDevices d = .error e) :
    finishFetch st2 n2 (.ok (r, d)) =
      { state := { st2 with rooms := R }, outcome := .error (wrapOuter e),
        authCalls := n2 } := by
  show processCycle st2 n2 r d = _
  unfold processCycle
  rw [hr, hd]

/-- On an auth-classified fetch error the cycle re-authenticates once and
continues with either that call's failure or the retried fetch. -/
theorem runFetchErr_authPath (st1 : CoordState) (n : Nat) (env : UpdateEnv)
    (e : PyExc) (hc : strContains e.str "Authentication failed" = true) :
    runFetchErr st1 n env e =
      match env.auth2.exc with
      | some e2 => finishFetch (applyAuth st1 env.auth2) (n + 1) (.error e2)
      | none => finishFetch (applyAuth st1 env.auth2) (n + 1) env.fetch2 := by
  unfold runFetchErr
  rw [if_neg (by simp [hc])]

/-- C1 (amended): with a token held from a previous successful cycle,
every failing refresh cycle that fails before the rooms reply is
processed leaves both the rooms and devices maps exactly equal to the
previous snapshot — this covers a fetch failure not classified as
authentication-expired (a), a failing re-authentication on the
auth-expired path (b), a failing retried fetch (c), and a structurally
malformed rooms reply on the first (d) or retried (e) fetch; but when a
rooms reply is well-formed and the devices reply fails its check — on the
first (f) or retried (g) fetch — the rooms map IS updated to the new
cycle's rooms while the devices map keeps the previous cycle's value, and
the cycle raises the wrapped `UpdateFailed`: a consumer can observe a
rooms map from cycle N next to a devices map from cycle N−1. -/
theorem C1_rooms_updated_before_devices_check (st : CoordState)
    (env : UpdateEnv) (tok : JVal)
    (htok : st.apiToken = some tok) :
    (∀ e, env.fetch1 = .error e →
      strContains e.str "Authentication failed" = false →
      asyncUpdateData st env =
        { state := st, outcome := .error (wrapOuter e), authCalls := 0 })
    ∧ (∀ e e2, env.fetch1 = .error e →
        strContains e.str "Authentication failed" = true →
        env.auth2.exc = some e2 →
        (asyncUpdateData st env).state.rooms = st.rooms
        ∧ (asyncUpdateData st env).state.devices = st.devices
        ∧ (asyncUpdateData st env).outcome = .error (wrapOuter e2))
    ∧ (∀ e e2, env.fetch1 = .error e →
        strContains e.str "Authentication failed" = true →
        env.auth2.exc = none → env.fetch2 = .error e2 →
        (asyncUpdateData st env).state.rooms = st.rooms
        ∧ (asyncUpdateData st env).state.devices = st.devices
        ∧ (asyncUpdateData st env).outcome = .error (wrapOuter e2))
    ∧ (∀ r d e, env.fetch1 = .ok (r, d) → processRooms r = .error e →
        asyncUpdateData st env =
          { state := st, outcome := .error (wrapOuter e), authCalls := 0 })
    ∧ (∀ ef r d e, env.fetch1 = .error ef →
        strContains ef.str "Authentication failed" = true →
        env.auth2.exc = none → env.fetch2 = .ok (r, d) →
        processRooms r = .error e →
        (asyncUpdateData st env).state.rooms = st.rooms
        ∧ (asyncUpdateData st env).state.devices = st.devices
        ∧ (asyncUpdateData st env).outcome = .error (wrapOuter e))
    ∧ (∀ r d R e, env.fetch1 = .ok (r, d) → processRooms r = .ok R →
        processDevices d = .error e →
        asyncUpdateData st env =
          { state := { st with rooms := R },
            outcome := .error (wrapOuter e), authCalls := 0 })
    ∧ (∀ ef r d R e, env.fetch1 = .error ef →
        strContains ef.str "Authentication failed" = true →
        env.auth2.exc = none → env.fetch2 = .ok (r, d) →
        processRooms r = .ok R → processDevices d = .error e →
        (asyncUpdateData st env).state.rooms = R
        ∧ (asyncUpdateData st env).state.devices = st.devices
        ∧ (asyncUpdateData st env).outcome = .error (wrapOuter e)) := by
  have hA : asyncUpdateData st env = runFetch st 0 env :=
    asyncUpdateData_with_token st env tok htok
  refine ⟨?ca, ?cb, ?cc, ?cd, ?ce, ?cf, ?cg⟩
  · intro e hf hc
    rw [hA]
    have hrf : runFetch st 0 env = runFetchErr st 0 env e := by
      unfold runFetch
      rw [hf]
    rw [hrf]
    unfold runFetchErr
    rw [if_pos (by simp [hc])]
    rfl
  · intro e e2 hf hc ha2
    have hres : asyncUpdateData st env =
        { state := applyAuth st env.auth2,
          outcome := .error (wrapOuter e2), authCalls := 1 } := by
      rw [hA]
      have hrf : runFetch st 0 env = runFetchErr st 0 env e := by
        unfold runFetch
        rw [hf]
      rw [hrf, runFetchErr_authPath st 0 env e hc, ha2]
      exact finishFetch_error _ _ _
    rw [hres]
    exact ⟨(applyAuth_maps st env.auth2).1, (applyAuth_maps st env.auth2).2,
      rfl⟩
  · intro e e2 hf hc ha2 hf2
    have hres : asyncUpdateData st env =
        { state := applyAuth st env.auth2,
          outcome := .error (wrapOuter e2), authCalls := 1 } := by
      rw [hA]
      have hrf : runFetch st 0 env = runFetchErr st 0 env e := by
        unfold runFetch
        rw [hf]
      rw [hrf, runFetchErr_authPath st 0 env e hc, ha2, hf2]
      exact finishFetch_error _ _ _
    rw [hres]
    exact ⟨(applyAuth_maps st env.auth2).1, (applyAuth_maps st env.auth2).2,
      rfl⟩
  · intro r d e hf hr
    rw [hA]
    have hrf : runFetch st 0 env = finishFetch st 0 (.ok (r, d)) := by
      unfold runFetch
      rw [hf]
    rw [hrf]
    exact finishFetch_rooms_bad st 0 r d e hr
  · intro ef r d e hf hc ha2 hf2 hr
    have hres : asyncUpdateData st env =
        { state := applyAuth st env.auth2,
          outcome := .error (wrapOuter e), authCalls := 1 } := by
      rw [hA]
      have hrf : runFetch st 0 env = runFetchErr st 0 env ef := by
        unfold runFetch
        rw [hf]
      rw [hrf, runFetchErr_authPath st 0 env ef hc, ha2, hf2]
      exact finishFetch_rooms_bad _ _ r d e hr
    rw [hres]
    exact ⟨(applyAuth_maps st env.auth2).1, (applyAuth_maps st env.auth2).2,
      rfl⟩
  · intro r d R e hf hr hd
    rw [hA]
    have hrf : runFetch st 0 env = finishFetch st 0 (.ok (r, d)) := by
      unfold runFetch
      rw [hf]
    rw [hrf]
    exact finishFetch_devices_bad st 0 r d R e hr hd
  · intro ef r d R e hf hc ha2 hf2 hr hd
    have hres : asyncUpdateData st env =
        { state := { applyAuth st env.auth2 with rooms := R },
          outcome := .error (wrapOuter e), authCalls := 1 } := by
      rw [hA]
      have hrf : runFetch st 0 env = runFetchErr st 0 env ef := by
        unfold runFetch
        rw [hf]
      rw [hrf, runFetchErr_authPath st 0 env ef hc, ha2, hf2]
      exact finishFetch_devices_bad _ _ r d R e hr hd
    rw [hres]
    exact ⟨rfl, (applyAuth_maps st env.auth2).2, rfl⟩

/-- Witness for the amended C1: concrete inputs for a retention branch and
for the mixed-state branch — a transport failure retains the full state; a
malformed devices reply after a well-formed rooms reply updates the rooms
map while the devices map keeps its previous value. -/
theorem C1_rooms_updated_before_devices_check_witness :
    asyncUpdateData
      { apiToken := some (.jstr "tk"), rooms := [("1", .jnull)],
        devices := [("9", .jnull)] }
      { auth1 := { exc := none, setsToken := none },
        fetch1 := .error (.clientError "boom"),
        auth2 := { exc := none, setsToken := none },
        fetch2 := .ok (.jnull, .jnull) } =
      { state :=
          { apiToken := some (.jstr "tk"), rooms := [("1", .jnull)],
            devices := [("9", .jnull)] },
        outcome := .error (wrapOuter (.clientError "boom")),
        authCalls := 0 } :=
  (C1_rooms_updated_before_devices_check
    { apiToken := some (.jstr "tk"), rooms := [("1", .jnull)],
      devices := [("9", .jnull)] }
    { auth1 := { exc := none, setsToken := none },
      fetch1 := .error (.clientError "boom"),
      auth2 := { exc := none, setsToken := none },
      fetch2 := .ok (.jnull, .jnull) }
    (.jstr "tk") rfl).1 (.clientError "boom") rfl (by decide)

/-- Counterexample to C1 as stated: a concrete previously successful
snapshot followed by a cycle whose rooms reply is well-formed and whose
devices reply is structurally malformed (no `"data"` key).  The failed
cycle's final rooms map holds the new cycle's single room keyed `"2"` —
not the previous map keyed `"1"` — while the devices map still holds the
previous cycle's value: the retention/atomicity property is violated. -/
theorem C1_mixed_state_counterexample :
    asyncUpdateData
      { apiToken := some (.jstr "tk"), rooms := [("1", .jnull)],
        devices := [("9", .jnull)] }
      { auth1 := { exc := none, setsToken := none },
        fetch1 := .ok
          (.jobj [("data", .jobj [("property", .jobj
            [("rooms", .jarr [.jobj [("id", .jint 2)]])])])],
           .jobj []),
        auth2 := { exc := none, setsToken := none },
        fetch2 := .ok (.jnull, .jnull) } =
      { state :=
          { apiToken := some (.jstr "tk"),
            rooms := [("2", .jobj [("id", .jint 2)])],
            devices := [("9", .jnull)] },
        outcome := .error (.updateFailedExc
          "Error communicating with API: Invalid devices response"),
        authCalls := 0 }
    ∧ (asyncUpdateData
      { apiToken := some (.jstr "tk"), rooms := [("1", .jnull)],
        devices := [("9", .jnull)] }
      { auth1 := { exc := none, setsToken := none },
        fetch1 := .ok
          (.jobj [("data", .jobj [("property", .jobj
            [("rooms", .jarr [.jobj [("id", .jint 2)]])])])],
           .jobj []),
        auth2 := { exc := none, setsToken := none },
        fetch2 := .ok (.jnull, .jnull) }).state.rooms ≠ [("1", .jnull)] := by
  constructor
  · rfl
  · intro hcon
    have h2 := congrArg (List.map Prod.fst) hcon
    exact absurd h2 (by decide)

/-- C3: with a token held, a fetch failing with an error classified as
authentication-expired (its `str` contains `"Authentication failed"`)
followed by a successful re-authentication leads to exactly one
re-authentication; if the retried fetch succeeds and both replies are
well-formed the cycle returns the new rooms/devices data, and if the
retried fetch fails again the cycle raises `UpdateFailed` (never the fatal
`ConfigEntryAuthFailed`). -/
theorem C3_auth_expired_retry_once (st : CoordState) (env : UpdateEnv)
    (tok tok2 : JVal) (e : PyExc)
    (htok : st.apiToken = some tok)
    (hf1 : env.fetch1 = .error e)
    (hc : strContains e.str "Authentication failed" = true)
    (ha2e : env.auth2.exc = none)
    (ha2t : env.auth2.setsToken = some tok2) :
    ((asyncUpdateData st env).authCalls = 1)
    ∧ (∀ r d R D, env.fetch2 = .ok (r, d) → processRooms r = .ok R →
        processDevices d = .ok D →
        (asyncUpdateData st env).outcome = .ok (R, D))
    ∧ (∀ e2, env.fetch2 = .error e2 → e2 ≠ .configEntryAuthFailedExc →
        (asyncUpdateData st env).outcome =
          .error (.updateFailedExc
            (String.append "Error communicating with API: " e2.str))) := by
  have hmain : asyncUpdateData st env =
      finishFetch { st with apiToken := some tok2 } 1 env.fetch2 := by
    rw [asyncUpdateData_with_token st env tok htok]
    have hrf : runFetch st 0 env = runFetchErr st 0 env e := by
      unfold runFetch
      rw [hf1]
    rw [hrf]
    unfold runFetchErr
    rw [if_neg (by simp [hc])]
    unfold applyAuth
    rw [ha2t, ha2e]
  refine ⟨?hcalls, ?hok, ?herr⟩
  · rw [hmain]
    exact finishFetch_authCalls _ _ _
  · intro r d R D hf2 hr hd
    rw [hmain, hf2]
    show (processCycle { st with apiToken := some tok2 } 1 r d).outcome = _
    unfold processCycle
    rw [hr, hd]
  · intro e2 hf2 hne2
    rw [hmain, hf2]
    show (Except.error (wrapOuter e2) :
      Except PyExc ((List (String × JVal)) × (List (String × JVal)))) = _
    rw [wrapOuter_ne_config e2 hne2]

/-- Witness for the amended C2: a concrete login reply with an empty
`properties` list, applied to a fresh API object. -/
theorem C2_empty_properties_behavior_witness :
    authenticate apiInit
        { status := 200, contentType := "application/json",
          body := some (.jobj []) }
        { status := 200, contentType := "application/json",
          body := some (.jobj [("data", .jobj [("logIn", .jobj
            [("token", .jstr "tk2"),
             ("user", .jobj [("id", .jint 9),
               ("properties", .jarr [])])])])]) } =
      ({ token := some (.jstr "tk2"), userId := some (.jint 9),
         propertyId := none, authHeaderToken := none },
       some (.indexError "list index out of range")) :=
  C2_empty_properties_behavior apiInit
    { status := 200, contentType := "application/json",
      body := some (.jobj []) }
    { status := 200, contentType := "application/json",
      body := some (.jobj [("data", .jobj [("logIn", .jobj
        [("token", .jstr "tk2"),
         ("user", .jobj [("id", .jint 9),
           ("properties", .jarr [])])])])]) }
    (.jobj [])
    [("data", .jobj [("logIn", .jobj
      [("token", .jstr "tk2"),
       ("user", .jobj [("id", .jint 9), ("properties", .jarr [])])])])]
    [("logIn", .jobj
      [("token", .jstr "tk2"),
       ("user", .jobj [("id", .jint 9), ("properties", .jarr [])])])]
    [("token", .jstr "tk2"),
     ("user", .jobj [("id", .jint 9), ("properties", .jarr [])])]
    [("id", .jint 9), ("properties", .jarr [])]
    (.jstr "tk2") (.jint 9)
    rfl rfl rfl rfl rfl rfl rfl rfl

/-- Witness for C3: a concrete token-expired first fetch, a successful
re-authentication and a successful retried fetch with well-formed empty
rooms/devices replies: one authentication call and a successful cycle. -/
theorem C3_auth_expired_retry_once_witness :
    (asyncUpdateData
      { apiToken := some (.jstr "tk"), rooms := [], devices := [] }
      { auth1 := { exc := none, setsToken := none },
        fetch1 := .error (.tikoAuthError "Authentication failed"),
        auth2 := { exc := none, setsToken := some (.jstr "tk2") },
        fetch2 := .ok
          (.jobj [("data", .jobj [("property", .jobj
            [("rooms", .jarr [])])])],
           .jobj [("data", .jobj [("property", .jobj
             [("devices", .jarr [])])])]) }).authCalls = 1
    ∧ (asyncUpdateData
      { apiToken := some (.jstr "tk"), rooms := [], devices := [] }
      { auth1 := { exc := none, setsToken := none },
        fetch1 := .error (.tikoAuthError "Authentication failed"),
        auth2 := { exc := none, setsToken := some (.jstr "tk2") },
        fetch2 := .ok
          (.jobj [("data", .jobj [("property", .jobj
            [("rooms", .jarr [])])])],
           .jobj [("data", .jobj [("property", .jobj
             [("devices", .jarr [])])])]) }).outcome = .ok ([], []) := by
  have h := C3_auth_expired_retry_once
    { apiToken := some (.jstr "tk"), rooms := [], devices := [] }
    { auth1 := { exc := none, setsToken := none },
      fetch1 := .error (.tikoAuthError "Authentication failed"),
      auth2 := { exc := none, setsToken := some (.jstr "tk2") },
      fetch2 := .ok
        (.jobj [("data", .jobj [("property", .jobj
          [("rooms", .jarr [])])])],
         .jobj [("data", .jobj [("property", .jobj
           [("devices", .jarr [])])])]) }
    (.jstr "tk") (.jstr "tk2") (.tikoAuthError "Authentication failed")
    rfl rfl (by decide) rfl rfl
  exact ⟨h.1, h.2.1 _ _ [] [] rfl rfl rfl⟩

/-- C7: each coordinator command method delegates exactly one call to the
resource client; on success it then triggers the out-of-band refresh, and
on failure the underlying exception propagates unchanged to the caller
(no retry, no refresh).  `set_temperature` first converts the room id with
`int(...)`. -/
theorem C7_commands_delegate_and_propagate (roomId : String) (n : Int)
    (hparse : pyToInt roomId = .ok n) :
    (∀ v, coordSetTemperature roomId (.ok v) =
      { exc := none, apiCalls := 1, refreshRequested := true })
    ∧ (∀ e, coordSetTemperature roomId (.error e) =
      { exc := some e, apiCalls := 1, refreshRequested := false })
    ∧ (∀ v, coordSetMode (.ok v) =
      { exc := none, apiCalls := 1, refreshRequested := true })
    ∧ (∀ e, coordSetMode (.error e) =
      { exc := some e, apiCalls := 1, refreshRequested := false }) := by
  refine ⟨?ta, ?tb, ?ma, ?mb⟩ <;> intro x <;>
    simp [coordSetTemperature, coordSetMode, hparse]

/-- Witness for C7: room `"42"`, one failing and one succeeding command. -/
theorem C7_commands_delegate_and_propagate_witness :
    coordSetTemperature "42" (.error (.clientError "boom")) =
      { exc := some (.clientError "boom"), apiCalls := 1,
        refreshRequested := false }
    ∧ coordSetMode (.ok .jnull) =
      { exc := none, apiCalls := 1, refreshRequested := true } :=
  ⟨(C7_commands_delegate_and_propagate "42" 42 rfl).2.1 (.clientError "boom"),
   (C7_commands_delegate_and_propagate "42" 42 rfl).2.2.1 .jnull⟩

/-- C9: a successful cycle whose `GetRooms` reply holds the single room
`{id: 42, name: "Lounge", currentTemperatureDegrees: 19.5,
targetTemperatureDegrees: 21.0, status: {heatingOperating: true}}` yields
a rooms map with the single string key `"42"` holding that room; on the
resulting state the climate entity reads current temperature `19.5`,
target temperature `21.0`, and derives hvac action `"heating"`. -/
theorem C9_single_room_snapshot_heating :
    asyncUpdateData
      { apiToken := some (.jstr "tk"), rooms := [], devices := [] }
      { auth1 := { exc := none, setsToken := none },
        fetch1 := .ok
          (.jobj [("data", .jobj [("property", .jobj [("rooms", .jarr
            [.jobj [("id", .jint 42), ("name", .jstr "Lounge"),
              ("currentTemperatureDegrees", .jrat 19.5),
              ("targetTemperatureDegrees", .jrat 21.0),
              ("status", .jobj [("heatingOperating", .jbool true)])]])])])],
           .jobj [("data", .jobj [("property", .jobj
             [("devices", .jarr [])])])]),
        auth2 := { exc := none, setsToken := none },
        fetch2 := .ok (.jnull, .jnull) } =
      { state :=
          { apiToken := some (.jstr "tk"),
            rooms := [("42", .jobj [("id", .jint 42), ("name", .jstr "Lounge"),
              ("currentTemperatureDegrees", .jrat 19.5),
              ("targetTemperatureDegrees", .jrat 21.0),
              ("status", .jobj [("heatingOperating", .jbool true)])])],
            devices := [] },
        outcome := .ok
          ([("42", .jobj [("id", .jint 42), ("name", .jstr "Lounge"),
            ("currentTemperatureDegrees", .jrat 19.5),
            ("targetTemperatureDegrees", .jrat 21.0),
            ("status", .jobj [("heatingOperating", .jbool true)])])], []),
        authCalls := 0 }
    ∧ current_temperature
        { apiToken := some (.jstr "tk"),
          rooms := [("42", .jobj [("id", .jint 42), ("name", .jstr "Lounge"),
            ("currentTemperatureDegrees", .jrat 19.5),
            ("targetTemperatureDegrees", .jrat 21.0),
            ("status", .jobj [("heatingOperating", .jbool true)])])],
          devices := [] } "42" = .ok (.jrat 19.5)
    ∧ target_temperature
        { apiToken := some (.jstr "tk"),
          rooms := [("42", .jobj [("id", .jint 42), ("name", .jstr "Lounge"),
            ("currentTemperatureDegrees", .jrat 19.5),
            ("targetTemperatureDegrees", .jrat 21.0),
            ("status", .jobj [("heatingOperating", .jbool true)])])],
          devices := [] } "42" = .ok (.jrat 21.0)
    ∧ hvac_action
        { apiToken := some (.jstr "tk"),
          rooms := [("42", .jobj [("id", .jint 42), ("name", .jstr "Lounge"),
            ("currentTemperatureDegrees", .jrat 19.5),
            ("targetTemperatureDegrees", .jrat 21.0),
            ("status", .jobj [("heatingOperating", .jbool true)])])],
          devices := [] } "42" = .ok "heating" :=
  ⟨rfl, rfl, rfl, rfl⟩
